import Mathlib

/-!
Verification development for "the-outsider": a shallow embedding of the
browser client (static/game.js and the outsider-ui React components) and,
where the session engine itself is not part of the sources, a model of the
engine built from the specification text.

Conventions:
* JavaScript strings are Lean `String`s; `String.trim` in JS is embedded as
  `jsTrim` over the ECMAScript whitespace set.
* DOM state touched by the handlers (form visibility, disabled flags, the
  click handler installed on the question counter) is carried in
  `ClientState`; `socket.emit` calls are recorded as a list of `Emission`s.
* Purely presentational chat-log appends and console logging are not part
  of the state; indicator strings are abstracted into the `TurnMessage`
  and `VoteCounterMsg` enumerations.
-/

/-- The ECMAScript whitespace set used by `String.prototype.trim`. -/
def isJsWhitespace (c : Char) : Bool :=
  (9 ≤ c.val && c.val ≤ 13) || c.val = 32 || c.val = 160 || c.val = 5760 ||
  (8192 ≤ c.val && c.val ≤ 8202) || c.val = 8232 || c.val = 8233 ||
  c.val = 8239 || c.val = 8287 || c.val = 12288 || c.val = 65279

/-- Embedding of JavaScript `s.trim()`. -/
def jsTrim (s : String) : String :=
  ⟨((s.toList.dropWhile isJsWhitespace).reverse.dropWhile isJsWhitespace).reverse⟩

/-- Socket events the client can emit (game.js `socket.emit` calls relevant
to game actions). -/
inductive Emission where
  | askQuestion (question target : String)
  | submitAnswer (answer : String)
  | submitVote (sid : String)
  | submitQuestion (question target : String)
  | requestVote
  | typingStop
  deriving DecidableEq, Repr

/-- Abstraction of the text placed in the `turn-indicator` element. -/
inductive TurnMessage where
  | waiting
  | yourTurnToAsk
  | askingYou (asker : String)
  | askingOther (asker target : String)
  | thinking (asker : String)
  | questionSent (target : String)
  | answerSent
  | everyonePassed
  deriving DecidableEq, Repr

/-- Abstraction of the text in the `questions-until-vote` element. -/
inductive VoteCounterMsg where
  | canVoteNow
  | canVoteSpectating
  | untilVote (n : Nat)
  | voteRequested
  deriving DecidableEq, Repr

/-- The client-side state mutated by the game.js handlers. -/
structure ClientState where
  isSpectator : Bool := false
  isTyping : Bool := false
  questionInputValue : String := ""
  answerInputValue : String := ""
  targetSelectValue : String := ""
  selectedVoteTarget : Option String := none
  askFormHidden : Bool := true
  answerFormHidden : Bool := true
  voteFormHidden : Bool := true
  questionInputDisabled : Bool := true
  targetSelectDisabled : Bool := true
  askBtnDisabled : Bool := true
  answerInputDisabled : Bool := true
  answerBtnDisabled : Bool := true
  submitVoteBtnDisabled : Bool := true
  voteRequestClickable : Bool := false
  voteCounterMsg : VoteCounterMsg := VoteCounterMsg.untilVote 5
  questionCountShown : Nat := 0
  turnIndicator : TurnMessage := TurnMessage.waiting
  deriving DecidableEq, Repr

/-- game.js `stopTyping()`: emits `typing_stop` when a typing indicator is
active. -/
def stopTyping (s : ClientState) : ClientState × List Emission :=
  if s.isTyping then ({ s with isTyping := false }, [Emission.typingStop])
  else (s, [])

/-- game.js `askBtn` click handler (lines 128-163): spectators return early;
otherwise, with a non-empty trimmed question and a selected target, emits
`ask_question`, clears and hides the ask form, and disables its inputs. -/
def askBtnClick (s : ClientState) : ClientState × List Emission :=
  if s.isSpectator then (s, [])
  else
    let question := jsTrim s.questionInputValue
    let target := s.targetSelectValue
    if question ≠ "" ∧ target ≠ "" then
      let st := stopTyping { s with questionInputValue := "", askFormHidden := true,
                                    questionInputDisabled := true,
                                    targetSelectDisabled := true,
                                    askBtnDisabled := true }
      ({ st.1 with turnIndicator := TurnMessage.questionSent target },
       Emission.askQuestion question target :: st.2)
    else (s, [])

/-- game.js `answerBtn` click handler (lines 165-185): spectators return
early; otherwise, with a non-empty trimmed answer, emits `submit_answer`,
clears and hides the answer form, and disables its inputs. -/
def answerBtnClick (s : ClientState) : ClientState × List Emission :=
  if s.isSpectator then (s, [])
  else
    let answer := jsTrim s.answerInputValue
    if answer ≠ "" then
      let st := stopTyping { s with answerInputValue := "", answerFormHidden := true,
                                    answerInputDisabled := true,
                                    answerBtnDisabled := true }
      ({ st.1 with turnIndicator := TurnMessage.answerSent },
       Emission.submitAnswer answer :: st.2)
    else (s, [])

/-- game.js `submitVoteBtn` click handler (lines 187-195): spectators return
early; otherwise, with a selection made, emits `submit_vote` and disables
the button. -/
def submitVoteBtnClick (s : ClientState) : ClientState × List Emission :=
  if s.isSpectator then (s, [])
  else
    match s.selectedVoteTarget with
    | some tgt => ({ s with submitVoteBtnDisabled := true }, [Emission.submitVote tgt])
    | none => (s, [])

/-- game.js `askForm` submit handler (lines 197-206): emits
`submit_question` whenever question and target are non-empty — note there
is no spectator check in this handler. -/
def askFormSubmit (s : ClientState) : ClientState × List Emission :=
  let question := jsTrim s.questionInputValue
  let target := s.targetSelectValue
  if question = "" ∨ target = "" then (s, [])
  else ({ s with questionInputValue := "", askFormHidden := true },
        [Emission.submitQuestion question target])

/-- game.js `answerForm` submit handler (lines 208-216): emits
`submit_answer` whenever the trimmed answer is non-empty — note there is no
spectator check in this handler. -/
def answerFormSubmit (s : ClientState) : ClientState × List Emission :=
  let answer := jsTrim s.answerInputValue
  if answer = "" then (s, [])
  else ({ s with answerInputValue := "", answerFormHidden := true },
        [Emission.submitAnswer answer])

/-- The click handler installed on the question counter when a vote may be
requested (game.js lines 688-694, 771-777, 1092-1098): emits `request_vote`
once and uninstalls itself. -/
def voteCounterClick (s : ClientState) : ClientState × List Emission :=
  if s.voteRequestClickable then
    ({ s with voteRequestClickable := false,
              voteCounterMsg := VoteCounterMsg.voteRequested },
     [Emission.requestVote])
  else (s, [])

/-- Payload of the `turn_update` server event. -/
structure TurnUpdateData where
  current_asker : Option String
  current_target : Option String
  is_my_turn_to_ask : Bool
  is_my_turn_to_answer : Bool
  can_ask : Bool
  can_answer : Bool
  deriving DecidableEq, Repr

/-- game.js `turn_update` handler (lines 342-418): updates the turn
indicator, then enables the ask form (hiding the answer form) when
`can_ask`, else the answer form (hiding the ask form) when `can_answer`,
else hides both forms and disables every input. -/
def turnUpdate (s : ClientState) (d : TurnUpdateData) : ClientState :=
  let ti :=
    match d.current_asker with
    | some asker =>
      if d.is_my_turn_to_ask then TurnMessage.yourTurnToAsk
      else if d.is_my_turn_to_answer then TurnMessage.askingYou asker
      else
        match d.current_target with
        | some t => TurnMessage.askingOther asker t
        | none => TurnMessage.thinking asker
    | none => s.turnIndicator
  if d.can_ask then
    { s with turnIndicator := ti,
             askFormHidden := false, answerFormHidden := true,
             questionInputDisabled := false, targetSelectDisabled := false,
             askBtnDisabled := false, answerInputValue := "" }
  else if d.can_answer then
    { s with turnIndicator := ti,
             askFormHidden := true, answerFormHidden := false,
             answerInputDisabled := false, answerBtnDisabled := false,
             questionInputValue := "" }
  else
    { s with turnIndicator := ti,
             askFormHidden := true, answerFormHidden := true,
             questionInputDisabled := true, targetSelectDisabled := true,
             askBtnDisabled := true, answerInputDisabled := true,
             answerBtnDisabled := true,
             questionInputValue := "", answerInputValue := "" }

/-- Payload of the `question_count_update` server event. -/
structure QuestionCountData where
  question_count : Option Nat
  questions_until_vote : Option Nat
  deriving DecidableEq, Repr

/-- game.js `question_count_update` handler (lines 664-711): updates the
counter; when zero exchanges remain until the vote, installs the
`request_vote` click handler for players (never for spectators); otherwise
removes it. -/
def questionCountUpdate (s : ClientState) (d : QuestionCountData) : ClientState :=
  let s1 :=
    match d.question_count with
    | some c => { s with questionCountShown := c }
    | none => s
  match d.questions_until_vote with
  | none => s1
  | some v =>
    if v = 0 then
      if s1.isSpectator then
        { s1 with voteCounterMsg := VoteCounterMsg.canVoteSpectating,
                  voteRequestClickable := false }
      else
        { s1 with voteCounterMsg := VoteCounterMsg.canVoteNow,
                  voteRequestClickable := true }
    else
      { s1 with voteCounterMsg := VoteCounterMsg.untilVote v,
                voteRequestClickable := false }

/-- game.js `voting_results` handler, `all_passed` branch (lines 743-784):
hides the vote form, shows the ask form, and for non-spectators restores
the vote-request click handler on the question counter. -/
def votingResults (s : ClientState) (all_passed : Bool) : ClientState :=
  if all_passed then
    let s1 := { s with voteFormHidden := true, askFormHidden := false,
                       answerFormHidden := true }
    let s2 :=
      if !s1.isSpectator then
        { s1 with voteCounterMsg := VoteCounterMsg.canVoteNow,
                  voteRequestClickable := true }
      else s1
    { s2 with turnIndicator := TurnMessage.everyonePassed }
  else s

/-- User interactions that can trigger the game.js handlers. -/
inductive UserEvent where
  | clickAsk
  | clickAnswer
  | clickVote
  | clickVoteCounter
  | formSubmitAsk
  | formSubmitAnswer
  deriving DecidableEq, Repr

/-- Dispatch a user interaction to its game.js handler. -/
def handleEvent (s : ClientState) : UserEvent → ClientState × List Emission
  | UserEvent.clickAsk => askBtnClick s
  | UserEvent.clickAnswer => answerBtnClick s
  | UserEvent.clickVote => submitVoteBtnClick s
  | UserEvent.clickVoteCounter => voteCounterClick s
  | UserEvent.formSubmitAsk => askFormSubmit s
  | UserEvent.formSubmitAnswer => answerFormSubmit s

/-- Run a sequence of user interactions, accumulating all emissions. -/
def runEvents (s : ClientState) : List UserEvent → ClientState × List Emission
  | [] => (s, [])
  | e :: rest =>
    let p := handleEvent s e
    let q := runEvents p.1 rest
    (q.1, p.2 ++ q.2)

/-- Emissions the spec forbids a spectator to produce (the game-action
events named by the spectator claim). -/
def isGameActionEmission : Emission → Bool
  | Emission.askQuestion _ _ => true
  | Emission.submitAnswer _ => true
  | Emission.submitVote _ => true
  | _ => false

/-- Emissions that only the ask button or the vote button can produce
(`ask_question` and `submit_vote`). -/
def isAskOrVoteEmission : Emission → Bool
  | Emission.askQuestion _ _ => true
  | Emission.submitVote _ => true
  | _ => false

/-!
Engine model. The server-side session engine (session controller, vote
tally, broadcaster) is not among the sources; the following definitions
are built from the specification text and are used for the claims that
speak about the engine.
-/

/-- Which side won a finished session. -/
inductive Winner where
  | humans
  | outsiderSide
  deriving DecidableEq, Repr

/-- Session phase. -/
inductive Phase where
  | lobby
  | active
  | voting
  | ended (w : Winner)
  deriving DecidableEq, Repr

/-- Whether a phase is an ended phase. -/
def Phase.isEnded : Phase → Bool
  | Phase.ended _ => true
  | _ => false

/-- A voter's choice in a vote round: a target participant or a pass. -/
inductive Choice where
  | pass
  | target (pid : String)
  deriving DecidableEq, Repr

/-- Modelled from the spec (§3 VoteRound): set of eligible voters
snapshotted at round open, and the recorded choices, one per voter. -/
structure VoteRound where
  eligible : List String
  votes : List (String × Choice)
  deriving DecidableEq, Repr

/-- Outcome of resolving a vote round (§4.4). -/
inductive Outcome where
  | elimination (pid : String)
  | tie (tied : List String)
  | unanimousPass
  deriving DecidableEq, Repr

/-- The participant eliminated by an outcome, if any. -/
def Outcome.eliminated : Outcome → Option String
  | Outcome.elimination p => some p
  | _ => none

/-- The non-pass choices recorded in a round, in vote order. -/
def nonPassChoices (vr : VoteRound) : List String :=
  vr.votes.filterMap fun pc =>
    match pc.2 with
    | Choice.target p => some p
    | Choice.pass => none

/-- Number of non-pass votes received by a participant. -/
def voteCountFor (vr : VoteRound) (p : String) : Nat :=
  (nonPassChoices vr).count p

/-- The highest non-pass vote count received by any participant. -/
def maxVotes (vr : VoteRound) : Nat :=
  ((nonPassChoices vr).map (voteCountFor vr)).foldr max 0

/-- The participants tied for the most non-pass votes. -/
def voteLeaders (vr : VoteRound) : List String :=
  (nonPassChoices vr).dedup.filter fun p => voteCountFor vr p = maxVotes vr

/-- Modelled from the spec (§4.4 `resolve()`, not among the sources):
tallies non-pass choices; the participant with strictly the most votes is
eliminated; a tie among the leaders is reported as `Tie` with the tied
set; if every voter passes the outcome is `UnanimousPass`. -/
def resolve (vr : VoteRound) : Outcome :=
  if (nonPassChoices vr).isEmpty then Outcome.unanimousPass
  else
    match voteLeaders vr with
    | [p] => Outcome.elimination p
    | ps => Outcome.tie ps

/-- Modelled from the spec (§3 Session, §4.5 Session Controller, not among
the sources): the per-session engine state the claims need. -/
structure EngineSession where
  phase : Phase
  alive : List String
  outsiderId : String
  location : String
  exchangeCount : Nat
  exchangeThreshold : Nat
  deriving DecidableEq, Repr

/-- Modelled from the spec (§4.3 `remainingUntilVote()`): exchanges left
until a vote may be requested. -/
def remainingUntilVote (sess : EngineSession) : Nat :=
  sess.exchangeThreshold - sess.exchangeCount

/-- Modelled from the spec (§4.5 `requestVote()`, not among the sources):
allowed only when no exchanges remain until the vote and the phase is
Active; on success the phase becomes Voting. -/
def requestVote (sess : EngineSession) : Option EngineSession :=
  if sess.phase = Phase.active ∧ remainingUntilVote sess = 0 then
    some { sess with phase := Phase.voting }
  else none

/-- Modelled from the spec (§4.5 win determination, not among the
sources): after an elimination, humans win iff the eliminated participant
is the outsider; otherwise a human was eliminated in its place and the
outsider side wins. Either way the phase becomes Ended. -/
def eliminateAndCheckWin (sess : EngineSession) (pid : String) : EngineSession :=
  let sess1 := { sess with alive := sess.alive.erase pid }
  if pid = sess.outsiderId then { sess1 with phase := Phase.ended Winner.humans }
  else { sess1 with phase := Phase.ended Winner.outsiderSide }

/-- Modelled from the spec (§4.5 win determination, not among the
sources): a correct location guess from the outsider before the session
has ended makes the outsider side win. -/
def applyLocationGuess (sess : EngineSession) (guess : String) : EngineSession :=
  if !sess.phase.isEnded ∧ guess = sess.location then
    { sess with phase := Phase.ended Winner.outsiderSide }
  else sess

/-- Modelled from the spec (§4.5 `submitVote` outcome application, not
among the sources): an elimination triggers the win check; a tie or a
unanimous pass eliminates nobody and returns the phase to Active. -/
def applyVoteOutcome (sess : EngineSession) (o : Outcome) : EngineSession :=
  match o with
  | Outcome.elimination p => eliminateAndCheckWin sess p
  | Outcome.tie _ => { sess with phase := Phase.active }
  | Outcome.unanimousPass => { sess with phase := Phase.active }

/-- Modelled from the spec (§6 Broadcaster, not among the sources): the
per-recipient event payload; the secret location is omitted for the
outsider and included for everyone else. -/
structure BroadcastPayload where
  location : Option String
  deriving DecidableEq, Repr

/-- Modelled from the spec (§6 Broadcaster, not among the sources): build
the event payload delivered to one recipient. -/
def buildEventPayload (sess : EngineSession) (recipient : String) : BroadcastPayload :=
  { location := if recipient = sess.outsiderId then none else some sess.location }

/-!
The outsider-ui React components referenced by the claims.
-/

/-- A character allowed by the LoginScreen name pattern
`[a-zA-Z0-9_-]`. -/
def validNameChar (c : Char) : Bool :=
  (('a' ≤ c && c ≤ 'z') || ('A' ≤ c && c ≤ 'Z') || ('0' ≤ c && c ≤ '9') ||
   c = '_' || c = '-')

/-- Embedding of the regular-expression test used in LoginScreen: the
whole string consists of one or more characters from `[a-zA-Z0-9_-]`. -/
def matchesNamePattern (s : String) : Bool :=
  !s.isEmpty && s.toList.all validNameChar

/-- Result of the LoginScreen submit handler: either an error message is
set, or `onLogin` is invoked with the accepted name. -/
inductive LoginResult where
  | errMsg (msg : String)
  | login (name : String)
  deriving DecidableEq, Repr

/-- LoginScreen.tsx `handleSubmit` (lines 13-46): trims the entered
username, rejects it when empty, shorter than 2, longer than 20, or not
matching the name pattern, setting the corresponding error; otherwise
clears the error and calls `onLogin` with the trimmed name. The entered
text state is not modified by the handler. -/
def handleSubmit (username : String) : LoginResult :=
  let trimmedUsername := jsTrim username
  if trimmedUsername = "" then
    LoginResult.errMsg "Please enter a name"
  else if trimmedUsername.length < 2 then
    LoginResult.errMsg "Name must be at least 2 characters"
  else if trimmedUsername.length > 20 then
    LoginResult.errMsg "Name must be 20 characters or less"
  else if !matchesNamePattern trimmedUsername then
    LoginResult.errMsg "Name can only contain letters, numbers, - and _"
  else
    LoginResult.login trimmedUsername

/-- The LoginScreen component state touched by `handleSubmit`: the entered
text and the error message. -/
structure LoginState where
  username : String
  error : String
  deriving DecidableEq, Repr

/-- State-level view of LoginScreen `handleSubmit`: a rejection sets the
error message, an acceptance clears it and calls `onLogin` (the second
component); the entered text is not modified in either case. -/
def loginSubmitState (st : LoginState) : LoginState × Option String :=
  match handleSubmit st.username with
  | LoginResult.errMsg m => ({ st with error := m }, none)
  | LoginResult.login n => ({ st with error := "" }, some n)

/-- Possible outcomes of the `/api/random-name` fetch in LoginScreen. -/
inductive FetchOutcome where
  | respOk (name : Option String)
  | respNotOk
  | fetchThrew
  deriving DecidableEq, Repr

/-- The client-side fallback name table in LoginScreen `handleRandomName`
(the same table appears in the non-OK branch and in the catch branch). -/
def fallbackNames : List String :=
  ["Alex", "Blake", "Casey", "Drew", "Ellis", "Finley", "Gray", "Harper"]

/-- Result of `handleRandomName`: either the username field is set to a
name, or an error message is shown. -/
inductive RandomNameResult where
  | setName (name : String)
  | errMsg (msg : String)
  deriving DecidableEq, Repr

/-- LoginScreen.tsx `handleRandomName` (lines 48-81): an OK response with
a name sets it; an OK response without a name shows an error; a non-OK
response or a thrown fetch falls back to a random pick from the fixed
client-side table (`rand` embeds the value of
`Math.floor(Math.random() * fallbackNames.length)`). -/
def handleRandomName (res : FetchOutcome) (rand : Nat) : RandomNameResult :=
  match res with
  | FetchOutcome.respOk (some name) => RandomNameResult.setName name
  | FetchOutcome.respOk none => RandomNameResult.errMsg "No available names found"
  | FetchOutcome.respNotOk =>
      RandomNameResult.setName (fallbackNames.getD (rand % fallbackNames.length) "")
  | FetchOutcome.fetchThrew =>
      RandomNameResult.setName (fallbackNames.getD (rand % fallbackNames.length) "")

/-- JavaScript division embedded over the rationals; `none` stands for the
non-finite result produced when the divisor is zero. -/
def jsDiv (a b : ℚ) : Option ℚ :=
  if b = 0 then none else some (a / b)

/-- Number `toFixed(1)` rounding, as tenths: the integer closest to
`10 * x`, the larger one on ties. -/
def toFixedTenths (x : ℚ) : ℤ :=
  ⌊x * 10 + 1 / 2⌋

/-- WinBar.tsx `winPercentage` (lines 45-47) in tenths of a percent: when
at least one game was played, divide `human_wins` by `total_games`,
multiply by 100 and format to one decimal; otherwise show `0.0` without
dividing. `none` would mean a non-finite division result reached the
display. -/
def winPercentage (human_wins total_games : ℕ) : Option ℤ :=
  if total_games > 0 then
    (jsDiv (human_wins : ℚ) (total_games : ℚ)).map fun r => toFixedTenths (r * 100)
  else some 0

/-- Props of GamePlayingSidebar that determine the location line. -/
structure SidebarProps where
  location : Option String
  isOutsider : Bool
  deriving DecidableEq, Repr

/-- GamePlayingSidebar.tsx location rendering (lines 48-55): the outsider
is shown the literal text UNKNOWN; everyone else is shown the location
prop (an absent prop renders as empty text). -/
def renderLocationText (p : SidebarProps) : String :=
  if p.isOutsider then "UNKNOWN" else p.location.getD ""

/-- game.js `game_started` handler location display (lines 859-867): the
location from the payload is shown to the (human, hence non-outsider)
client. -/
def gameStartedLocationShown (payloadLocation : String) : String :=
  "Location: " ++ payloadLocation

/-!
Theorems for the claims.
-/

/-- Claim C6: after processing any `turn_update` event, at most one of the
ask form and the answer form is visible; when the client can ask, the
answer form is hidden; when it cannot ask but can answer, the ask form is
hidden; otherwise both forms are hidden and every game input is
disabled, so a participant is never simultaneously able to submit a
question and an answer. -/
theorem turn_update_at_most_one_action (s : ClientState) (d : TurnUpdateData) :
    (¬((turnUpdate s d).askFormHidden = false ∧
       (turnUpdate s d).answerFormHidden = false)) ∧
    (d.can_ask = true →
       (turnUpdate s d).askFormHidden = false ∧
       (turnUpdate s d).answerFormHidden = true) ∧
    (d.can_ask = false → d.can_answer = true →
       (turnUpdate s d).askFormHidden = true ∧
       (turnUpdate s d).answerFormHidden = false) ∧
    (d.can_ask = false → d.can_answer = false →
       (turnUpdate s d).askFormHidden = true ∧
       (turnUpdate s d).answerFormHidden = true ∧
       (turnUpdate s d).questionInputDisabled = true ∧
       (turnUpdate s d).targetSelectDisabled = true ∧
       (turnUpdate s d).askBtnDisabled = true ∧
       (turnUpdate s d).answerInputDisabled = true ∧
       (turnUpdate s d).answerBtnDisabled = true) := by
  cases hca : d.can_ask <;> cases hcb : d.can_answer <;>
    simp [turnUpdate, hca, hcb]

/-- Claim C6 witness: at a concrete `turn_update` payload letting the
client ask, the ask form is shown and the answer form hidden. -/
theorem turn_update_at_most_one_action_witness :
    (turnUpdate { } { current_asker := none, current_target := none,
                      is_my_turn_to_ask := false, is_my_turn_to_answer := false,
                      can_ask := true, can_answer := false }).askFormHidden = false ∧
    (turnUpdate { } { current_asker := none, current_target := none,
                      is_my_turn_to_ask := false, is_my_turn_to_answer := false,
                      can_ask := true, can_answer := false }).answerFormHidden = true :=
  (turn_update_at_most_one_action { }
    { current_asker := none, current_target := none,
      is_my_turn_to_ask := false, is_my_turn_to_answer := false,
      can_ask := true, can_answer := false }).2.1 rfl

/-- Claim C5: the engine accepts `requestVote` exactly when no exchanges
remain until the voting threshold and the phase is Active; the client
installs the `request_vote` click handler on a `question_count_update`
exactly when zero exchanges remain and the client is not a spectator; and
clicking the counter emits `request_vote` exactly when that handler is
installed. -/
theorem vote_request_gating :
    (∀ sess : EngineSession,
       (requestVote sess).isSome ↔
         (remainingUntilVote sess = 0 ∧ sess.phase = Phase.active)) ∧
    (∀ (s : ClientState) (d : QuestionCountData) (v : Nat),
       d.questions_until_vote = some v →
       ((questionCountUpdate s d).voteRequestClickable = true ↔
         (v = 0 ∧ s.isSpectator = false))) ∧
    (∀ s : ClientState,
       (voteCounterClick s).2 = [Emission.requestVote] ↔
         s.voteRequestClickable = true) := by
  refine ⟨?_, ?_, ?_⟩
  · intro sess
    unfold requestVote
    split
    · simp only [Option.isSome_some, true_iff]
      exact ⟨by omega, by tauto⟩
    · simp only [Option.isSome_none, false_iff]
      tauto
  · intro s d v hv
    cases hq : d.question_count <;>
      cases hv0 : decide (v = 0) <;> cases hsp : s.isSpectator <;>
        simp_all [questionCountUpdate]
  · intro s
    cases h : s.voteRequestClickable <;> simp [voteCounterClick, h]

/-- Claim C5 witness: a non-spectator client told that zero exchanges
remain gets the vote-request handler installed. -/
theorem vote_request_gating_witness :
    (questionCountUpdate { }
      { question_count := none, questions_until_vote := some 0 }).voteRequestClickable
      = true ↔ (0 = 0 ∧ ({ } : ClientState).isSpectator = false) :=
  vote_request_gating.2.1 { }
    { question_count := none, questions_until_vote := some 0 } 0 rfl

/-- Claim C4: a vote round in which every recorded choice is a pass
resolves to `UnanimousPass` with nobody eliminated; applying that outcome
returns the session to the Active phase without touching the alive set;
and on the client the `voting_results` all-passed branch hides the vote
form, shows the ask form again and, for a non-spectator, reinstalls the
vote-request click handler. -/
theorem unanimous_pass_returns_active :
    (∀ vr : VoteRound, (∀ pc ∈ vr.votes, pc.2 = Choice.pass) →
       resolve vr = Outcome.unanimousPass ∧
       (resolve vr).eliminated = none) ∧
    (∀ sess : EngineSession,
       (applyVoteOutcome sess Outcome.unanimousPass).phase = Phase.active ∧
       (applyVoteOutcome sess Outcome.unanimousPass).alive = sess.alive) ∧
    (∀ s : ClientState, s.isSpectator = false →
       (votingResults s true).voteFormHidden = true ∧
       (votingResults s true).askFormHidden = false ∧
       (votingResults s true).voteRequestClickable = true) := by
  refine ⟨?_, ?_, ?_⟩
  · intro vr h
    have hnp : nonPassChoices vr = [] := by
      unfold nonPassChoices
      rw [List.filterMap_eq_nil_iff]
      intro pc hpc
      rw [h pc hpc]
    refine ⟨?_, ?_⟩ <;> simp [resolve, hnp, Outcome.eliminated]
  · intro sess
    exact ⟨rfl, rfl⟩
  · intro s h
    simp [votingResults, h]

/-- Claim C4 witness: a concrete all-pass round resolves to
`UnanimousPass` with nobody eliminated. -/
theorem unanimous_pass_returns_active_witness :
    resolve { eligible := ["A", "B"],
              votes := [("A", Choice.pass), ("B", Choice.pass)] }
        = Outcome.unanimousPass ∧
    (resolve { eligible := ["A", "B"],
               votes := [("A", Choice.pass), ("B", Choice.pass)] }).eliminated
        = none :=
  unanimous_pass_returns_active.1
    { eligible := ["A", "B"], votes := [("A", Choice.pass), ("B", Choice.pass)] }
    (by decide)

/-- When no non-pass choices were recorded there are no vote leaders. -/
lemma voteLeaders_eq_nil_of_nonPass_nil (vr : VoteRound)
    (h : nonPassChoices vr = []) : voteLeaders vr = [] := by
  simp [voteLeaders, h]

/-- Claim C3: when two or more participants are tied for strictly the most
non-pass votes, the round resolves to `Tie` carrying exactly the tied set,
nobody is eliminated, and applying the outcome returns the session to the
Active phase with the alive set unchanged. -/
theorem tie_resolves_without_elimination :
    (∀ vr : VoteRound, 2 ≤ (voteLeaders vr).length →
       resolve vr = Outcome.tie (voteLeaders vr) ∧
       (resolve vr).eliminated = none) ∧
    (∀ (vr : VoteRound) (sess : EngineSession), 2 ≤ (voteLeaders vr).length →
       (applyVoteOutcome sess (resolve vr)).phase = Phase.active ∧
       (applyVoteOutcome sess (resolve vr)).alive = sess.alive) := by
  have key : ∀ vr : VoteRound, 2 ≤ (voteLeaders vr).length →
      resolve vr = Outcome.tie (voteLeaders vr) := by
    intro vr h2
    have hne : ¬((nonPassChoices vr).isEmpty = true) := by
      intro he
      have hnil : nonPassChoices vr = [] := List.isEmpty_iff.mp he
      rw [voteLeaders_eq_nil_of_nonPass_nil vr hnil] at h2
      simp at h2
    unfold resolve
    rw [if_neg hne]
    rcases hl : voteLeaders vr with _ | ⟨p, _ | ⟨q, rest⟩⟩
    · rfl
    · rw [hl] at h2; exact absurd h2 (by simp)
    · rfl
  refine ⟨fun vr h2 => ⟨key vr h2, ?_⟩, fun vr sess h2 => ?_⟩
  · rw [key vr h2]; rfl
  · rw [key vr h2]
    exact ⟨rfl, rfl⟩

/-- Claim C3 witness: the spec Scenario B tally (A:2, B:2, one pass among
five voters) resolves to a tie of A and B with nobody eliminated. -/
theorem tie_resolves_without_elimination_witness :
    resolve { eligible := ["A", "B", "C", "D", "E"],
              votes := [("C", Choice.target "A"), ("D", Choice.target "A"),
                        ("A", Choice.target "B"), ("E", Choice.target "B"),
                        ("B", Choice.pass)] }
        = Outcome.tie (voteLeaders
            { eligible := ["A", "B", "C", "D", "E"],
              votes := [("C", Choice.target "A"), ("D", Choice.target "A"),
                        ("A", Choice.target "B"), ("E", Choice.target "B"),
                        ("B", Choice.pass)] }) ∧
    (resolve { eligible := ["A", "B", "C", "D", "E"],
               votes := [("C", Choice.target "A"), ("D", Choice.target "A"),
                         ("A", Choice.target "B"), ("E", Choice.target "B"),
                         ("B", Choice.pass)] }).eliminated = none :=
  tie_resolves_without_elimination.1
    { eligible := ["A", "B", "C", "D", "E"],
      votes := [("C", Choice.target "A"), ("D", Choice.target "A"),
                ("A", Choice.target "B"), ("E", Choice.target "B"),
                ("B", Choice.pass)] }
    (by decide)

/-- Claim C1: after an elimination the session ends, humans winning
exactly when the eliminated participant is the outsider and the outsider
side winning exactly when a human was eliminated in its place (so a human
elimination never continues play); and a correct location guess delivered
before the session has ended makes the outsider side win. -/
theorem win_determination :
    (∀ (sess : EngineSession) (pid : String),
       ((eliminateAndCheckWin sess pid).phase = Phase.ended Winner.humans ↔
          pid = sess.outsiderId) ∧
       ((eliminateAndCheckWin sess pid).phase = Phase.ended Winner.outsiderSide ↔
          pid ≠ sess.outsiderId) ∧
       (eliminateAndCheckWin sess pid).phase.isEnded = true) ∧
    (∀ (sess : EngineSession) (guess : String),
       sess.phase.isEnded = false → guess = sess.location →
       (applyLocationGuess sess guess).phase = Phase.ended Winner.outsiderSide) := by
  constructor
  · intro sess pid
    by_cases h : pid = sess.outsiderId <;>
      simp [eliminateAndCheckWin, h, Phase.isEnded]
  · intro sess guess hend hguess
    simp [applyLocationGuess, hend, hguess]

/-- Claim C1 witness: in a concrete active session, a correct location
guess ends the game with the outsider side winning, and eliminating a
human ends it the same way while eliminating the outsider ends it with the
humans winning. -/
theorem win_determination_witness :
    ((applyLocationGuess
        { phase := Phase.active, alive := ["ai_Sam", "A", "B"],
          outsiderId := "ai_Sam", location := "Beach",
          exchangeCount := 5, exchangeThreshold := 5 } "Beach").phase
      = Phase.ended Winner.outsiderSide) ∧
    ((eliminateAndCheckWin
        { phase := Phase.active, alive := ["ai_Sam", "A", "B"],
          outsiderId := "ai_Sam", location := "Beach",
          exchangeCount := 5, exchangeThreshold := 5 } "A").phase
      = Phase.ended Winner.outsiderSide ↔ "A" ≠ "ai_Sam") :=
  ⟨win_determination.2
      { phase := Phase.active, alive := ["ai_Sam", "A", "B"],
        outsiderId := "ai_Sam", location := "Beach",
        exchangeCount := 5, exchangeThreshold := 5 } "Beach" rfl rfl,
   (win_determination.1
      { phase := Phase.active, alive := ["ai_Sam", "A", "B"],
        outsiderId := "ai_Sam", location := "Beach",
        exchangeCount := 5, exchangeThreshold := 5 } "A").2.1⟩

/-- Claim C2: the sidebar shows the outsider the literal text UNKNOWN
independently of the location value while non-outsiders are shown the
location, and the broadcaster payload for the outsider recipient carries
no location (and does not depend on it) while every other recipient is
sent the location. -/
theorem outsider_never_receives_location :
    (∀ loc1 loc2 : Option String,
       renderLocationText { location := loc1, isOutsider := true } =
         renderLocationText { location := loc2, isOutsider := true }) ∧
    (∀ loc : String,
       renderLocationText { location := some loc, isOutsider := false } = loc) ∧
    (∀ sess : EngineSession,
       (buildEventPayload sess sess.outsiderId).location = none) ∧
    (∀ (sess : EngineSession) (loc1 loc2 : String),
       buildEventPayload { sess with location := loc1 } sess.outsiderId =
         buildEventPayload { sess with location := loc2 } sess.outsiderId) ∧
    (∀ (sess : EngineSession) (r : String), r ≠ sess.outsiderId →
       (buildEventPayload sess r).location = some sess.location) := by
  refine ⟨fun loc1 loc2 => rfl, fun loc => rfl, fun sess => ?_, ?_, ?_⟩
  · simp [buildEventPayload]
  · intro sess loc1 loc2
    simp [buildEventPayload]
  · intro sess r h
    simp [buildEventPayload, h]

/-- Claim C2 witness: in a concrete session a non-outsider recipient is
sent the location in the payload. -/
theorem outsider_never_receives_location_witness :
    (buildEventPayload
        { phase := Phase.active, alive := ["ai_Sam", "A", "B"],
          outsiderId := "ai_Sam", location := "Casino",
          exchangeCount := 0, exchangeThreshold := 5 } "A").location
      = some "Casino" :=
  outsider_never_receives_location.2.2.2.2
    { phase := Phase.active, alive := ["ai_Sam", "A", "B"],
      outsiderId := "ai_Sam", location := "Casino",
      exchangeCount := 0, exchangeThreshold := 5 } "A" (by decide)

/-- Claim C7 counterexample: a spectator client whose answer input holds
text emits `submit_answer` on an answer-form submit event, because that
handler has no spectator check; so a spectator client is not prevented
from emitting every game-action event. -/
theorem spectator_emission_counterexample :
    ({ isSpectator := true, answerInputValue := "yes" } : ClientState).isSpectator
      = true ∧
    (runEvents ({ isSpectator := true, answerInputValue := "yes" } : ClientState)
        [UserEvent.formSubmitAnswer]).2
      = [Emission.submitAnswer "yes"] := by
  constructor
  · rfl
  · rfl

/-- Stopping the typing indicator leaves the spectator flag unchanged. -/
lemma stopTyping_fst_isSpectator (s : ClientState) :
    (stopTyping s).1.isSpectator = s.isSpectator := by
  unfold stopTyping
  split <;> rfl

/-- Every game.js handler leaves the spectator flag unchanged. -/
lemma handleEvent_preserves_isSpectator (s : ClientState) (e : UserEvent) :
    (handleEvent s e).1.isSpectator = s.isSpectator := by
  cases e <;>
    simp only [handleEvent, askBtnClick, answerBtnClick, submitVoteBtnClick,
      voteCounterClick, askFormSubmit, answerFormSubmit] <;>
    split <;>
    (try split) <;>
    simp [stopTyping_fst_isSpectator]

/-- A spectator produces no `ask_question` or `submit_vote` emission from
any single handler, and no game-action emission from any handler other
than the answer-form submit. -/
lemma handleEvent_spectator_single (s : ClientState) (e : UserEvent)
    (hs : s.isSpectator = true) :
    (∀ em ∈ (handleEvent s e).2, isAskOrVoteEmission em = false) ∧
    (e ≠ UserEvent.formSubmitAnswer →
      ∀ em ∈ (handleEvent s e).2, isGameActionEmission em = false) := by
  cases e
  case clickAsk => simp [handleEvent, askBtnClick, hs]
  case clickAnswer => simp [handleEvent, answerBtnClick, hs]
  case clickVote => simp [handleEvent, submitVoteBtnClick, hs]
  case clickVoteCounter =>
    constructor
    · simp only [handleEvent, voteCounterClick]
      split <;> simp [isAskOrVoteEmission]
    · intro _
      simp only [handleEvent, voteCounterClick]
      split <;> simp [isGameActionEmission]
  case formSubmitAsk =>
    constructor
    · simp only [handleEvent, askFormSubmit]
      split <;> simp [isAskOrVoteEmission]
    · intro _
      simp only [handleEvent, askFormSubmit]
      split <;> simp [isGameActionEmission]
  case formSubmitAnswer =>
    constructor
    · simp only [handleEvent, answerFormSubmit]
      split <;> simp [isAskOrVoteEmission]
    · intro hne
      exact absurd rfl hne

/-- Claim C7 amended: under every sequence of user interactions a
spectator client emits no `ask_question` and no `submit_vote`; and under
every sequence avoiding the answer-form submit event (in particular,
any sequence of button clicks, whose handlers all check the spectator
flag) it emits no game-action event at all. -/
theorem spectator_no_game_actions_amended (s : ClientState)
    (evs : List UserEvent) (hs : s.isSpectator = true) :
    (∀ em ∈ (runEvents s evs).2, isAskOrVoteEmission em = false) ∧
    ((∀ e ∈ evs, e ≠ UserEvent.formSubmitAnswer) →
      ∀ em ∈ (runEvents s evs).2, isGameActionEmission em = false) := by
  induction evs generalizing s with
  | nil => simp [runEvents]
  | cons e rest ih =>
    have hs1 : (handleEvent s e).1.isSpectator = true := by
      rw [handleEvent_preserves_isSpectator]; exact hs
    have hsingle := handleEvent_spectator_single s e hs
    have hrest := ih (handleEvent s e).1 hs1
    constructor
    · intro em hem
      simp only [runEvents, List.mem_append] at hem
      rcases hem with hem | hem
      · exact hsingle.1 em hem
      · exact hrest.1 em hem
    · intro hall em hem
      simp only [runEvents, List.mem_append] at hem
      rcases hem with hem | hem
      · exact hsingle.2 (hall e (List.mem_cons_self e rest)) em hem
      · exact hrest.2 (fun x hx => hall x (List.mem_cons_of_mem e hx)) em hem

/-- Claim C7 amended witness: a concrete spectator client clicking ask,
answer and vote in sequence emits no game-action event. -/
theorem spectator_no_game_actions_amended_witness :
    (runEvents
        ({ isSpectator := true, answerInputValue := "yes",
           questionInputValue := "q", targetSelectValue := "A",
           selectedVoteTarget := some "A" } : ClientState)
        [UserEvent.clickAsk, UserEvent.clickAnswer,
         UserEvent.clickVote]).2.filter isGameActionEmission = [] := by
  rw [List.filter_eq_nil_iff]
  intro em hem
  have h := (spectator_no_game_actions_amended
      { isSpectator := true, answerInputValue := "yes",
        questionInputValue := "q", targetSelectValue := "A",
        selectedVoteTarget := some "A" }
      [UserEvent.clickAsk, UserEvent.clickAnswer, UserEvent.clickVote]
      rfl).2 (by decide) em hem
  simp [h]

/-- Claim C9: the submit handler accepts exactly the inputs whose trimmed
text is non-empty, of length 2 to 20, and made only of letters, digits,
hyphen and underscore — calling `onLogin` with the trimmed name — on any
other input it produces an error message instead, and in both cases the
entered text is left unchanged. -/
theorem login_validation (u : String) :
    (((∃ n, handleSubmit u = LoginResult.login n) ↔
      (jsTrim u ≠ "" ∧ 2 ≤ (jsTrim u).length ∧ (jsTrim u).length ≤ 20 ∧
        matchesNamePattern (jsTrim u) = true)) ∧
    (∀ n, handleSubmit u = LoginResult.login n → n = jsTrim u) ∧
    (¬(jsTrim u ≠ "" ∧ 2 ≤ (jsTrim u).length ∧ (jsTrim u).length ≤ 20 ∧
        matchesNamePattern (jsTrim u) = true) →
      ∃ msg, handleSubmit u = LoginResult.errMsg msg)) ∧
    (∀ st : LoginState, (loginSubmitState st).1.username = st.username) := by
  refine ⟨?_, ?_⟩
  case refine_2 =>
    intro st
    cases h : handleSubmit st.username <;> simp [loginSubmitState, h]
  dsimp only [handleSubmit]
  split_ifs with h1 h2 h3 h4
  · refine ⟨?_, fun n hn => by simp at hn, fun _ => ⟨_, rfl⟩⟩
    constructor
    · rintro ⟨n, hn⟩; simp at hn
    · rintro ⟨hne, -, -, -⟩; exact (hne h1).elim
  · refine ⟨?_, fun n hn => by simp at hn, fun _ => ⟨_, rfl⟩⟩
    constructor
    · rintro ⟨n, hn⟩; simp at hn
    · rintro ⟨-, hlen, -, -⟩; omega
  · refine ⟨?_, fun n hn => by simp at hn, fun _ => ⟨_, rfl⟩⟩
    constructor
    · rintro ⟨n, hn⟩; simp at hn
    · rintro ⟨-, -, hlen, -⟩; omega
  · refine ⟨?_, fun n hn => by simp at hn, fun _ => ⟨_, rfl⟩⟩
    constructor
    · rintro ⟨n, hn⟩; simp at hn
    · rintro ⟨-, -, -, hpat⟩
      simp only [Bool.not_eq_true'] at h4
      exact absurd hpat (by simp [h4])
  · have hpat : matchesNamePattern (jsTrim u) = true := by
      simpa using h4
    refine ⟨?_, ?_, ?_⟩
    · exact ⟨fun _ => ⟨h1, by omega, by omega, hpat⟩, fun _ => ⟨_, rfl⟩⟩
    · intro n hn
      simpa using hn.symm
    · intro hcontra
      exact absurd ⟨h1, by omega, by omega, hpat⟩ hcontra

/-- Claim C9 witness: a concrete invalid input is rejected with an error
message. -/
theorem login_validation_witness :
    ∃ msg, handleSubmit "!!" = LoginResult.errMsg msg :=
  (login_validation "!!").1.2.2 (by decide)

/-- Claim C8: a non-OK response or a thrown fetch still completes the
random-name operation with a name drawn from the fixed client-side
fallback table, and an error is produced exactly when the API responds OK
without a name. -/
theorem random_name_fallback :
    (∀ rand : Nat, ∃ n,
       handleRandomName FetchOutcome.respNotOk rand = RandomNameResult.setName n ∧
       n ∈ fallbackNames) ∧
    (∀ rand : Nat, ∃ n,
       handleRandomName FetchOutcome.fetchThrew rand = RandomNameResult.setName n ∧
       n ∈ fallbackNames) ∧
    (∀ (res : FetchOutcome) (rand : Nat),
       (∃ msg, handleRandomName res rand = RandomNameResult.errMsg msg) ↔
         res = FetchOutcome.respOk none) := by
  have hmem : ∀ rand : Nat,
      fallbackNames.getD (rand % fallbackNames.length) "" ∈ fallbackNames := by
    intro rand
    have hlt : rand % fallbackNames.length < fallbackNames.length :=
      Nat.mod_lt _ (by simp [fallbackNames])
    rw [List.getD_eq_getElem _ _ hlt]
    exact List.getElem_mem hlt
  refine ⟨fun rand => ⟨_, rfl, hmem rand⟩, fun rand => ⟨_, rfl, hmem rand⟩, ?_⟩
  intro res rand
  cases res with
  | respOk name =>
    cases name <;> simp [handleRandomName]
  | respNotOk => simp [handleRandomName]
  | fetchThrew => simp [handleRandomName]

/-- Claim C8 witness: at a concrete random index, a failed request still
yields a usable name from the fallback table. -/
theorem random_name_fallback_witness :
    ∃ n, handleRandomName FetchOutcome.respNotOk 13 = RandomNameResult.setName n ∧
      n ∈ fallbackNames :=
  random_name_fallback.1 13

/-- Claim C10: the WinBar win percentage equals `human_wins / total_games
* 100` rounded to tenths whenever at least one game was played, is exactly
zero tenths when no game was played, and in no case does the division
produce a non-finite value, because the zero divisor is guarded out. -/
theorem winbar_guarded_division (h t : ℕ) :
    (t = 0 → winPercentage h t = some 0) ∧
    (0 < t →
      winPercentage h t = some ⌊(h : ℚ) / (t : ℚ) * 100 * 10 + 1 / 2⌋) ∧
    winPercentage h t ≠ none := by
  by_cases ht : t = 0
  · subst ht
    refine ⟨fun _ => rfl, fun h0 => absurd h0 (by simp), by simp [winPercentage]⟩
  · have htpos : 0 < t := Nat.pos_of_ne_zero ht
    have htq : (t : ℚ) ≠ 0 := Nat.cast_ne_zero.mpr ht
    have heq : winPercentage h t =
        some ⌊(h : ℚ) / (t : ℚ) * 100 * 10 + 1 / 2⌋ := by
      simp [winPercentage, jsDiv, htpos, htq, toFixedTenths]
    exact ⟨fun h0 => absurd h0 ht, fun _ => heq, by simp [heq]⟩

/-- Claim C10 witness: one human win out of three games displays 33.3
percent, and zero games displays 0.0 without dividing. -/
theorem winbar_guarded_division_witness :
    winPercentage 1 3 = some ⌊(1 : ℚ) / (3 : ℚ) * 100 * 10 + 1 / 2⌋ ∧
    winPercentage 0 0 = some 0 :=
  ⟨(winbar_guarded_division 1 3).2.1 (by norm_num),
   (winbar_guarded_division 0 0).1 rfl⟩
